import Mathlib

/-!
Shallow embedding of `DatasetandDataLoader.py` (repository
`rydr0/Sat_Image_Dataset`) and verification of its specification.

Modelling conventions:
* a torch image tensor of shape (C, h, w) is an `Img`: explicit dimensions
  plus a total pixel function `ℕ → ℕ → ℕ → ℚ` (floats are modelled as
  rationals, exact arithmetic);
* a 2-row label tensor is a `List (List ℤ)` of rows (row 0 = indices,
  row 1 = population counts);
* the shared random source (`np.random` / `torch.rand`) is a `Rng`: two
  explicit entropy streams with read positions; `np.random.randint(0, n)`
  reads the integer stream modulo `n` (high end exclusive), `torch.rand(1)`
  reads the rational stream (values meant to lie in `[0,1)`);
* Python exceptions are `Except String`; in particular, truthiness of a
  multi-element tensor comparison (`if label[1] > bound:` with `label[1]`
  of more than one element) raises `RuntimeError`, which the embedding of
  `classify` reproduces;
* Python list indexing (`self.x[index]`) supports negative indices; the
  embedding `pyGetList` reproduces that semantics exactly.
-/

namespace SatImage

/-- A torch image tensor of shape (channels, height, width). -/
structure Img where
  channels : ℕ
  height : ℕ
  width : ℕ
  pixel : ℕ → ℕ → ℕ → ℚ

/-- The shared random source: a stream of naturals consumed by
`np.random.randint` and a stream of rationals consumed by `torch.rand(1)`,
each with its current read position. -/
structure Rng where
  ints : ℕ → ℕ
  floats : ℕ → ℚ
  intPos : ℕ
  floatPos : ℕ

/-- `np.random.randint(0, n)`: a value in `[0, n)` (high end exclusive),
drawn from the integer entropy stream. -/
def randint0 (n : ℕ) (rng : Rng) : ℕ × Rng :=
  (rng.ints rng.intPos % n, { rng with intPos := rng.intPos + 1 })

/-- `torch.rand(1)`: one rational from the float entropy stream. -/
def rand1 (rng : Rng) : ℚ × Rng :=
  (rng.floats rng.floatPos, { rng with floatPos := rng.floatPos + 1 })

/-! ## classify (source lines 57-81) -/

/-- Bin edges used by `classify` when `classes == 6`. -/
def bounds6 : List ℤ := [1, 10, 100, 1000, 10000]

/-- Bin edges used by `classify` when `classes == 16`: `2**0 .. 2**14`. -/
def bounds16 : List ℤ :=
  [1, 2, 4, 8, 16, 32, 64, 128, 256, 512, 1024, 2048, 4096, 8192, 16384]

/-- The `for c, bound in enumerate(bounds)` loop of `classify`, which
breaks at the first bound with `label[1] < bound`: the index of the first
bound strictly greater than `c`, or `none` when no bound is. -/
def firstIdxLt (c : ℤ) : List ℤ → Option ℕ
  | [] => none
  | b :: rest => if c < b then some 0 else (firstIdxLt c rest).map (· + 1)

/-- Embedding of `classify(label, classes)`.

The Python function selects `bounds` by `classes` (any other value leaves
`bounds` undefined, so evaluating `bounds[-1]` raises `NameError`), then
evaluates `if label[1] > bounds[-1]`. `label[1]` is the count row of the
label tensor; truthiness of the elementwise comparison raises
`RuntimeError` unless the row has exactly one element. With a single count
`c`: if `c > bounds[-1]` a row `[len(bounds)]` is concatenated; otherwise
the bounds are scanned and a row `[c]` is concatenated at the first bound
with `count < bound`, breaking out of the loop; if neither branch fires
the label is returned unchanged. -/
def classify (label : List (List ℤ)) (classes : ℕ) : Except String (List (List ℤ)) :=
  match (if classes = 16 then some bounds16 else
         if classes = 6 then some bounds6 else none) with
  | none => .error "NameError: name bounds is not defined"
  | some bounds =>
    match label.get? 1 with
    | none => .error "IndexError: index 1 is out of bounds"
    | some row =>
      match row with
      | [c] =>
        if bounds.getLast! < c then
          .ok (label ++ [[(bounds.length : ℤ)]])
        else
          match firstIdxLt c bounds with
          | some k => .ok (label ++ [[(k : ℤ)]])
          | none => .ok label
      | _ => .error "RuntimeError: Boolean value of Tensor with more than one element is ambiguous"

/-! ## random_crop_image (source lines 14-42) and flips (lines 45-54) -/

/-- The random offsets drawn by `random_crop_image`: `diff = img_dim - crp_dim`
(Python int subtraction); when `diff > 0` an offset is drawn by
`np.random.randint(0, diff)` (so in `[0, diff)`), otherwise the offset is 0
and no entropy is consumed. Height offset first, then width offset. -/
def crop_offsets (img_h img_w crp_h crp_w : ℕ) (rng : Rng) : (ℕ × ℕ) × Rng :=
  let diff_h : ℤ := (img_h : ℤ) - (crp_h : ℤ)
  let diff_w : ℤ := (img_w : ℤ) - (crp_w : ℤ)
  let ph := if 0 < diff_h then randint0 diff_h.toNat rng else (0, rng)
  let pw := if 0 < diff_w then randint0 diff_w.toNat ph.2 else (0, ph.2)
  ((ph.1, pw.1), pw.2)

/-- Python slice `[a:b]` (with `0 ≤ a ≤ b`) of an axis of extent `h`: the
resulting extent. The start clamps to `min a h`, the stop to `min b h`. -/
def sliceLen (h a b : ℕ) : ℕ := min b h - min a h

/-- Embedding of `random_crop_image(image, crp_h, crp_w)` (the Python
defaults are `crp_h=33`, `crp_w=50`; call sites pass them explicitly
here). Slicing `image[:, a:crp_h+a, b:crp_w+b]` keeps every channel and
clamps each slice endpoint to the axis extent. -/
def random_crop_image (image : Img) (crp_h crp_w : ℕ) (rng : Rng) : Img × Rng :=
  let off := crop_offsets image.height image.width crp_h crp_w rng
  let a := off.1.1
  let b := off.1.2
  ({ channels := image.channels,
     height := sliceLen image.height a (crp_h + a),
     width := sliceLen image.width b (crp_w + b),
     pixel := fun c i j =>
       image.pixel c (min a image.height + i) (min b image.width + j) },
   off.2)

/-- `horizontal_flip`: `torch.flip(image, [1])`, reversal along dim 1
(the height axis, in this repository's own axis naming). -/
def horizontal_flip (image : Img) : Img :=
  { image with pixel := fun c i j => image.pixel c (image.height - 1 - i) j }

/-- `vertical_flip`: `torch.flip(image, [2])`, reversal along dim 2
(the width axis). -/
def vertical_flip (image : Img) : Img :=
  { image with pixel := fun c i j => image.pixel c i (image.width - 1 - j) }

/-! ## normalize_fn (source lines 154-166) -/

/-- The per-image rewrite performed by `normalize_fn`: every channel index
below the channel count of the image has its pixels rewritten to
`(value - mean[0][channel]) / std[0][channel]`. -/
def normImg (mean std : ℕ → ℕ → ℚ) (img : Img) : Img :=
  { img with pixel := fun c i j =>
      if c < img.channels then (img.pixel c i j - mean 0 c) / std 0 c
      else img.pixel c i j }

/-- Embedding of `normalize_fn(x, mean, std)`: every image of the sequence
is rewritten by `normImg`. The Python code mutates the list in place; the
embedding returns the rewritten sequence. -/
def normalize_fn (x : List Img) (mean std : ℕ → ℕ → ℚ) : List Img :=
  x.map (normImg mean std)

/-! ## load_images_and_labels (source lines 84-151) -/

/-- A record read from a label file by `gpd.read_file`: the `Population`,
`Index` and `geometry` columns (geometries are modelled as opaque
integers). -/
structure Shp where
  population : List ℤ
  index : List ℤ
  geometry : List ℤ

/-- Python `str.lstrip(chars)`: drop leading characters belonging to the
character set `chars`. -/
def pyLstrip (s chars : String) : String :=
  ⟨s.data.dropWhile (fun c => c ∈ chars.data)⟩

/-- Python `str.rstrip(chars)`: drop trailing characters belonging to the
character set `chars`. -/
def pyRstrip (s chars : String) : String :=
  ⟨(s.data.reverse.dropWhile (fun c => c ∈ chars.data)).reverse⟩

/-- `sf.lstrip(chars1).rstrip(chars2)` with `chars1 = Index_` and
`chars2 = .gpkg`: the index substring extracted from a label filename. -/
def stripIndexName (sf : String) : String :=
  pyRstrip (pyLstrip sf "Index_") ".gpkg"

/-- The images directory selected by the `test`/`colab` flags. -/
def satImageFolder (test colab : Bool) : String :=
  if test = false then
    if colab = false then "C:/Users/rdroz/Documents/Dissertation Data Files/Train/Images"
    else "/content/Sat_Image_Dataset/Train/Images"
  else
    if colab = false then "C:/Users/rdroz/Documents/Dissertation Data Files/Test/Images"
    else "/content/Sat_Image_Dataset/Test/Images"

/-- The labels directory selected by the `test`/`colab` flags. -/
def labelsFolder (test colab : Bool) : String :=
  if test = false then
    if colab = false then "C:/Users/rdroz/Documents/Dissertation Data Files/Train/Labels"
    else "/content/Sat_Image_Dataset/Train/Labels"
  else
    if colab = false then "C:/Users/rdroz/Documents/Dissertation Data Files/Test/Labels"
    else "/content/Sat_Image_Dataset/Test/Labels"

/-- The image filename stem selected by the `test` flag
(`Train Set clipped_Index_` or `Test Set clipped_Index_`). -/
def imagePrefixFor (test : Bool) : String :=
  if test = false then "Train Set clipped_Index_" else "Test Set clipped_Index_"

/-- The image path opened for a given label filename `sf`
(`image_type = .tif`). -/
def imagePathFor (test colab : Bool) (sf : String) : String :=
  satImageFolder test colab ++ "/" ++ imagePrefixFor test ++ stripIndexName sf ++ ".tif"

/-- The label path read for a given label filename `sf`
(`label_prefix = Index_`, `label_type = .gpkg`). -/
def labelPathFor (test colab : Bool) (sf : String) : String :=
  labelsFolder test colab ++ "/" ++ "Index_" ++ stripIndexName sf ++ ".gpkg"

/-- The per-file loop of `load_images_and_labels`, iterated over the
directory listing. `gdalOpen` is the raster backend (`gdal.Open` followed
by `ReadAsArray`; `none` = load failure), `gpdReadFile` the vector
backend. Each iteration appends one image, one classified label and one
(index, geometry) pair; any backend failure or classification exception
aborts the whole load. -/
def load_loop (gdalOpen : String → Option Img) (gpdReadFile : String → Option Shp)
    (test colab : Bool) (classes : ℕ) :
    List String → Except String (List Img × List (List (List ℤ)) × List (List ℤ × List ℤ))
  | [] => .ok ([], [], [])
  | sf :: rest =>
    match gdalOpen (imagePathFor test colab sf) with
    | none => .error "RuntimeError: not recognized as a supported file format"
    | some image =>
      match gpdReadFile (labelPathFor test colab sf) with
      | none => .error "DriverError: no such file or directory"
      | some shp =>
        match classify [shp.index, shp.population] classes with
        | .error e => .error e
        | .ok label =>
          match load_loop gdalOpen gpdReadFile test colab classes rest with
          | .error e => .error e
          | .ok r =>
            .ok (image :: r.1, label :: r.2.1, (shp.index, shp.geometry) :: r.2.2)

/-- Embedding of `load_images_and_labels(test, colab, classes)`: the
directory listing of the labels folder (`os.listdir`) drives the loop. -/
def load_images_and_labels (listdir : String → List String)
    (gdalOpen : String → Option Img) (gpdReadFile : String → Option Shp)
    (test colab : Bool) (classes : ℕ) :
    Except String (List Img × List (List (List ℤ)) × List (List ℤ × List ℤ)) :=
  load_loop gdalOpen gpdReadFile test colab classes (listdir (labelsFolder test colab))

/-! ## SatImageDataset (source lines 169-214) -/

/-- The dataset state after `__init__`: the three parallel sequences, the
cached `n_images = len(self.x)` and the flip configuration. -/
structure SatImageDataset where
  x : List Img
  y : List (List (List ℤ))
  geo : List (List ℤ × List ℤ)
  n_images : ℕ
  flip : Bool
  flip_prob : ℚ

/-- `SatImageDataset.__init__`: load the three sequences, optionally
normalize the images in place, and cache `n_images = len(self.x)`. -/
def satImageDataset_init (listdir : String → List String)
    (gdalOpen : String → Option Img) (gpdReadFile : String → Option Shp)
    (test colab normalize : Bool) (mean std : ℕ → ℕ → ℚ)
    (flip : Bool) (flip_prob : ℚ) (classes : ℕ) :
    Except String SatImageDataset :=
  match load_images_and_labels listdir gdalOpen gpdReadFile test colab classes with
  | .error e => .error e
  | .ok r =>
    let x := if normalize = true then normalize_fn r.1 mean std else r.1
    .ok ⟨x, r.2.1, r.2.2, x.length, flip, flip_prob⟩

/-- `__len__`: returns the cached `n_images`. -/
def SatImageDataset.len (self : SatImageDataset) : ℕ := self.n_images

/-- Python list indexing `xs[i]`: nonnegative `i` below the length reads
position `i`; negative `i` with `-len <= i` reads position `len + i`;
anything else raises `IndexError`. -/
def pyGetList {α : Type} (xs : List α) (i : ℤ) : Except String α :=
  if h : 0 ≤ i ∧ i < (xs.length : ℤ) then
    .ok (xs.get ⟨i.toNat, by omega⟩)
  else if h2 : -(xs.length : ℤ) ≤ i ∧ i < 0 then
    .ok (xs.get ⟨(i + (xs.length : ℤ)).toNat, by omega⟩)
  else
    .error "IndexError: list index out of range"

/-- The flip step of `__getitem__` when `self.flip == True`: draw one
uniform value, flip horizontally if it is below `flip_prob`; otherwise
draw a second value and flip vertically if that one is below
`flip_prob`. -/
def flipStep (im : Img) (fp : ℚ) (rng : Rng) : Img × Rng :=
  let d1 := rand1 rng
  if d1.1 < fp then (horizontal_flip im, d1.2)
  else
    let d2 := rand1 d1.2
    if d2.1 < fp then (vertical_flip im, d2.2)
    else (im, d2.2)

/-- The augmentation pipeline of `__getitem__` on the fetched image: the
(33, 50) random crop, then the optional flip step when `self.flip`. -/
def cropFlip (self : SatImageDataset) (x0 : Img) (rng : Rng) : Img × Rng :=
  let cr := random_crop_image x0 33 50 rng
  if self.flip = true then flipStep cr.1 self.flip_prob cr.2 else cr

/-- Embedding of `SatImageDataset.__getitem__(self, index)` for an integer
index: crop `self.x[index]` to (33, 50), optionally flip, and return the
pair together with `self.y[index]`. The dataset state is threaded through
unchanged (the method never assigns to `self`), alongside the advanced
random source. -/
def getitem (self : SatImageDataset) (index : ℤ) (rng : Rng) :
    Except String ((Img × List (List ℤ)) × SatImageDataset × Rng) :=
  match pyGetList self.x index with
  | .error e => .error e
  | .ok x0 =>
    match pyGetList self.y index with
    | .error e => .error e
    | .ok y0 => .ok (((cropFlip self x0 rng).1, y0), self, (cropFlip self x0 rng).2)

/-! ## Theorems about classify -/

/-- `classify` on a single-count label with `classes = 6`, unfolded to the
overflow test against the last edge followed by the ascending scan. -/
theorem classify_six_unfold (idx c : ℤ) :
    classify [[idx], [c]] 6 =
      if (10000 : ℤ) < c then .ok [[idx], [c], [(5 : ℤ)]]
      else match firstIdxLt c bounds6 with
        | some k => .ok [[idx], [c], [(k : ℤ)]]
        | none => .ok [[idx], [c]] := rfl

/-- `classify` on a single-count label with `classes = 16`, unfolded to the
overflow test against the last edge followed by the ascending scan. -/
theorem classify_sixteen_unfold (idx c : ℤ) :
    classify [[idx], [c]] 16 =
      if (16384 : ℤ) < c then .ok [[idx], [c], [(15 : ℤ)]]
      else match firstIdxLt c bounds16 with
        | some k => .ok [[idx], [c], [(k : ℤ)]]
        | none => .ok [[idx], [c]] := rfl

/-- The scan loop returns index `k` exactly when edge `k` is the first one
strictly greater than the count. -/
theorem firstIdxLt_eq_some (c : ℤ) (l : List ℤ) :
    ∀ (k : ℕ) (hk : k < l.length), c < l.get ⟨k, hk⟩ →
      (∀ e ∈ l.take k, e ≤ c) →
      firstIdxLt c l = some k := by
  induction l with
  | nil => intro k hk; simp at hk
  | cons b rest ih =>
    intro k hk hck hprev
    cases k with
    | zero =>
      simp only [List.get] at hck
      simp [firstIdxLt, hck]
    | succ k =>
      have hb : b ≤ c := hprev b (by rw [List.take_succ_cons]; exact List.mem_cons_self b _)
      have hrest : firstIdxLt c rest = some k := by
        apply ih k (by simpa using hk) (by simpa using hck)
        intro e he
        exact hprev e (by rw [List.take_succ_cons]; exact List.mem_cons_of_mem b he)
      simp [firstIdxLt, hrest, not_lt.mpr hb]

/-- Claim C1: for a 2-row label (row 0 = index, row 1 = population count)
and `classes = 6` (edges 1,10,100,1000,10000) or `classes = 16` (edges
`2^0 .. 2^14`), `classify` appends the bin id equal to the index of the
first edge, in ascending order, that is strictly greater than the count;
and when the count is strictly greater than every edge it appends
bin id = number of edges (the overflow bin). -/
theorem classify_first_edge_rule (idx c : ℤ) (classes : ℕ) (edges : List ℤ)
    (hce : (classes = 6 ∧ edges = bounds6) ∨ (classes = 16 ∧ edges = bounds16)) :
    (∀ (k : ℕ) (hk : k < edges.length), c < edges.get ⟨k, hk⟩ →
       (∀ e ∈ edges.take k, e ≤ c) →
       classify [[idx], [c]] classes = .ok [[idx], [c], [(k : ℤ)]]) ∧
    ((∀ e ∈ edges, e < c) →
       classify [[idx], [c]] classes = .ok [[idx], [c], [(edges.length : ℤ)]]) := by
  rcases hce with ⟨hcl, he⟩ | ⟨hcl, he⟩ <;> subst hcl <;> subst he
  · constructor
    · intro k hk hck hprev
      have hmax : ∀ i : Fin bounds6.length, bounds6.get i ≤ 10000 := by decide
      have hng : ¬ (10000 : ℤ) < c := by
        have := hmax ⟨k, hk⟩
        omega
      rw [classify_six_unfold, if_neg hng, firstIdxLt_eq_some c bounds6 k hk hck hprev]
    · intro hall
      have h1 : (10000 : ℤ) < c := hall 10000 (by decide)
      rw [classify_six_unfold, if_pos h1]
      simp [bounds6]
  · constructor
    · intro k hk hck hprev
      have hmax : ∀ i : Fin bounds16.length, bounds16.get i ≤ 16384 := by decide
      have hng : ¬ (16384 : ℤ) < c := by
        have := hmax ⟨k, hk⟩
        omega
      rw [classify_sixteen_unfold, if_neg hng, firstIdxLt_eq_some c bounds16 k hk hck hprev]
    · intro hall
      have h1 : (16384 : ℤ) < c := hall 16384 (by decide)
      rw [classify_sixteen_unfold, if_pos h1]
      simp [bounds16]

/-- Witness for C1: count 10 with `classes = 6` lands in bin 2, the index
of the first edge (100) strictly greater than 10. -/
theorem classify_first_edge_rule_witness :
    classify [[0], [10]] 6 = .ok [[0], [10], [2]] :=
  (classify_first_edge_rule 0 10 6 bounds6 (Or.inl ⟨rfl, rfl⟩)).1 2 (by decide)
    (by decide) (by decide)

/-- Claim C2 (code bug): a count exactly equal to the largest bin edge
makes `classify` return the label unchanged, with 2 rows instead of the
documented 3: the row-cardinality invariant fails. -/
theorem classify_row_invariant_fails_at_max_edge :
    ∃ out, classify [[0], [10000]] 6 = .ok out ∧ out.length = 2 :=
  ⟨[[0], [10000]], rfl, rfl⟩

/-- Claim C3 (code bug): a count exactly equal to the largest bin edge is
not assigned the overflow bin; `classify` appends no class row at all and
returns the label unchanged, for both class counts. -/
theorem classify_max_edge_not_overflow :
    classify [[0], [10000]] 6 = .ok [[0], [10000]] ∧
    classify [[0], [16384]] 16 = .ok [[0], [16384]] :=
  ⟨rfl, rfl⟩

/-- Counterexample for C7: on a label whose count row has two entries,
`classify` does not inspect the first count; evaluating the truthiness of
the elementwise tensor comparison raises a `RuntimeError`, so no bin row
is ever appended. -/
theorem classify_multi_count_raises :
    classify [[0, 1], [5, 20000]] 6 =
      .error "RuntimeError: Boolean value of Tensor with more than one element is ambiguous" :=
  rfl

/-- Claim C7 as amended: for every label whose count row contains more
than one entry, `classify` fails with the tensor-truthiness
`RuntimeError` instead of classifying anything (so multi-region samples
get no shared class label: they cannot be classified at all). -/
theorem classify_multi_count_error (r0 row : List ℤ) (classes : ℕ)
    (hcl : classes = 6 ∨ classes = 16) (hrow : 2 ≤ row.length) :
    classify [r0, row] classes =
      .error "RuntimeError: Boolean value of Tensor with more than one element is ambiguous" := by
  cases row with
  | nil => simp at hrow
  | cons a t =>
    cases t with
    | nil => simp at hrow
    | cons b rest => rcases hcl with rfl | rfl <;> rfl

/-- Witness for the amended C7: a two-region label fails to classify under
`classes = 16`. -/
theorem classify_multi_count_error_witness :
    classify [[0, 1], [5, 20000]] 16 =
      .error "RuntimeError: Boolean value of Tensor with more than one element is ambiguous" :=
  classify_multi_count_error [0, 1] [5, 20000] 16 (Or.inr rfl) (by decide)

/-! ## Theorems about random_crop_image -/

/-- Height offset drawn by `crop_offsets`: 0 when the source height is at
most the target, and strictly below `img_h - crp_h` otherwise (the high
end of `np.random.randint` is exclusive). -/
theorem crop_offsets_h_spec (img_h img_w crp_h crp_w : ℕ) (rng : Rng) :
    (img_h ≤ crp_h → (crop_offsets img_h img_w crp_h crp_w rng).1.1 = 0) ∧
    (crp_h < img_h → (crop_offsets img_h img_w crp_h crp_w rng).1.1 < img_h - crp_h) := by
  constructor <;> intro h
  · have hng : ¬ (0 < (img_h : ℤ) - (crp_h : ℤ)) := by omega
    simp [crop_offsets, hng]
  · have hpos : 0 < (img_h : ℤ) - (crp_h : ℤ) := by omega
    have ht : ((img_h : ℤ) - (crp_h : ℤ)).toNat = img_h - crp_h := by omega
    simp [crop_offsets, hpos, randint0, ht]
    exact Nat.mod_lt _ (by omega)

/-- Width offset drawn by `crop_offsets`: 0 when the source width is at
most the target, and strictly below `img_w - crp_w` otherwise. -/
theorem crop_offsets_w_spec (img_h img_w crp_h crp_w : ℕ) (rng : Rng) :
    (img_w ≤ crp_w → (crop_offsets img_h img_w crp_h crp_w rng).1.2 = 0) ∧
    (crp_w < img_w → (crop_offsets img_h img_w crp_h crp_w rng).1.2 < img_w - crp_w) := by
  constructor <;> intro h
  · have hng : ¬ (0 < (img_w : ℤ) - (crp_w : ℤ)) := by omega
    simp [crop_offsets, hng]
  · have hpos : 0 < (img_w : ℤ) - (crp_w : ℤ) := by omega
    have ht : ((img_w : ℤ) - (crp_w : ℤ)).toNat = img_w - crp_w := by omega
    by_cases hh : 0 < (img_h : ℤ) - (crp_h : ℤ) <;>
      simp [crop_offsets, hpos, hh, randint0, ht] <;>
      exact Nat.mod_lt _ (by omega)

/-- A deterministic random source used by concrete witnesses. -/
def rngZero : Rng := ⟨fun _ => 0, fun _ => 0, 0, 0⟩

/-- Claim C5: random crop of a (C, h, w) image to target (33, 50) always
succeeds with shape (C, min h 33, min w 50); along an axis where the
source is at most the target the offset is 0, and when both axes are at
most the target the result is the silently clipped source image itself
(no padding), all channels preserved. -/
theorem random_crop_image_shape (image : Img) (rng : Rng) :
    (random_crop_image image 33 50 rng).1.channels = image.channels ∧
    (random_crop_image image 33 50 rng).1.height = min image.height 33 ∧
    (random_crop_image image 33 50 rng).1.width = min image.width 50 ∧
    (image.height ≤ 33 → (crop_offsets image.height image.width 33 50 rng).1.1 = 0) ∧
    (image.width ≤ 50 → (crop_offsets image.height image.width 33 50 rng).1.2 = 0) ∧
    (image.height ≤ 33 → image.width ≤ 50 → ∀ c i j,
      (random_crop_image image 33 50 rng).1.pixel c i j = image.pixel c i j) := by
  have ha := crop_offsets_h_spec image.height image.width 33 50 rng
  have hb := crop_offsets_w_spec image.height image.width 33 50 rng
  refine ⟨rfl, ?_, ?_, ha.1, hb.1, ?_⟩
  · show sliceLen image.height (crop_offsets image.height image.width 33 50 rng).1.1
        (33 + (crop_offsets image.height image.width 33 50 rng).1.1) = min image.height 33
    unfold sliceLen
    rcases le_or_lt image.height 33 with h | h
    · have := ha.1 h; omega
    · have := ha.2 h; omega
  · show sliceLen image.width (crop_offsets image.height image.width 33 50 rng).1.2
        (50 + (crop_offsets image.height image.width 33 50 rng).1.2) = min image.width 50
    unfold sliceLen
    rcases le_or_lt image.width 50 with h | h
    · have := hb.1 h; omega
    · have := hb.2 h; omega
  · intro h33 h50 c i j
    show image.pixel c
        (min (crop_offsets image.height image.width 33 50 rng).1.1 image.height + i)
        (min (crop_offsets image.height image.width 33 50 rng).1.2 image.width + j)
        = image.pixel c i j
    rw [ha.1 h33, hb.1 h50]
    simp

/-- Witness for C5: cropping a (3, 10, 10) image to (33, 50) silently
clips to (3, 10, 10) and leaves pixels untouched. -/
theorem random_crop_image_shape_witness :
    (random_crop_image ⟨3, 10, 10, fun _ _ _ => 7⟩ 33 50 rngZero).1.channels = 3 ∧
    (random_crop_image ⟨3, 10, 10, fun _ _ _ => 7⟩ 33 50 rngZero).1.height = 10 ∧
    (random_crop_image ⟨3, 10, 10, fun _ _ _ => 7⟩ 33 50 rngZero).1.width = 10 ∧
    (random_crop_image ⟨3, 10, 10, fun _ _ _ => 7⟩ 33 50 rngZero).1.pixel 0 2 3 = 7 := by
  have h := random_crop_image_shape ⟨3, 10, 10, fun _ _ _ => 7⟩ rngZero
  exact ⟨h.1, by simpa using h.2.1, by simpa using h.2.2.1,
    h.2.2.2.2.2 (by decide) (by decide) 0 2 3⟩

/-- Counterexample for C6: for a source of height 34 (so `h - 33 = 1`),
the maximal fitting top-left offset 1 is never drawn: the code draws from
`np.random.randint(0, 1) = {0}` only. -/
theorem crop_offset_misses_max :
    ¬ ∃ rng : Rng, (crop_offsets 34 100 33 50 rng).1.1 = 1 := by
  rintro ⟨rng, h⟩
  have hpos : 0 < (34 : ℤ) - (33 : ℤ) := by norm_num
  simp [crop_offsets, randint0, hpos] at h
  omega

/-- Claim C6 as amended: when the source strictly exceeds the target along
an axis, the drawn offset ranges exactly over `[0, diff - 1]` where
`diff = source - target`: every such offset is a possible outcome, and
every drawn offset is at most `diff - 1` (the maximal fitting offset
`diff` is never drawn, `np.random.randint` excluding its high end). -/
theorem crop_offsets_range (img_h img_w : ℕ) :
    (33 < img_h →
      (∀ o, o + 34 ≤ img_h →
        ∃ rng : Rng, (crop_offsets img_h img_w 33 50 rng).1.1 = o) ∧
      (∀ rng : Rng, (crop_offsets img_h img_w 33 50 rng).1.1 + 34 ≤ img_h)) ∧
    (50 < img_w →
      (∀ o, o + 51 ≤ img_w →
        ∃ rng : Rng, (crop_offsets img_h img_w 33 50 rng).1.2 = o) ∧
      (∀ rng : Rng, (crop_offsets img_h img_w 33 50 rng).1.2 + 51 ≤ img_w)) := by
  constructor
  · intro h33
    constructor
    · intro o ho
      refine ⟨⟨fun _ => o, fun _ => 0, 0, 0⟩, ?_⟩
      have hpos : 0 < (img_h : ℤ) - (33 : ℤ) := by omega
      have ht : ((img_h : ℤ) - (33 : ℤ)).toNat = img_h - 33 := by omega
      simp [crop_offsets, randint0, hpos, ht]
      exact Nat.mod_eq_of_lt (by omega)
    · intro rng
      have := (crop_offsets_h_spec img_h img_w 33 50 rng).2 h33
      omega
  · intro h50
    constructor
    · intro o ho
      refine ⟨⟨fun _ => o, fun _ => 0, 0, 0⟩, ?_⟩
      have hpos : 0 < (img_w : ℤ) - (50 : ℤ) := by omega
      have ht : ((img_w : ℤ) - (50 : ℤ)).toNat = img_w - 50 := by omega
      by_cases hh : 0 < (img_h : ℤ) - (33 : ℤ) <;>
        simp [crop_offsets, randint0, hpos, hh, ht] <;>
        exact Nat.mod_eq_of_lt (by omega)
    · intro rng
      have := (crop_offsets_w_spec img_h img_w 33 50 rng).2 h50
      omega

/-- Witness for the amended C6: for a (h, w) = (35, 100) source, height
offset 1 = 35 - 34 and width offset 49 = 100 - 51 are both reachable. -/
theorem crop_offsets_range_witness :
    (∃ rng : Rng, (crop_offsets 35 100 33 50 rng).1.1 = 1) ∧
    (∃ rng : Rng, (crop_offsets 35 100 33 50 rng).1.2 = 49) :=
  ⟨((crop_offsets_range 35 100).1 (by decide)).1 1 (by decide),
   ((crop_offsets_range 35 100).2 (by decide)).1 49 (by decide)⟩

/-! ## Theorems about normalize_fn -/

/-- Claim C8: given per-channel mean/std with nonzero std, the normalizer
rewrites every image of the sequence so that each pixel of every channel
`c` below the channel count becomes `(value - mean[c]) / std[c]` (the code
reads the per-channel vectors as `mean[0][c]` and `std[0][c]`). -/
theorem normalize_fn_formula (x : List Img) (mean std : ℕ → ℕ → ℚ)
    (hstd : ∀ ch, std 0 ch ≠ 0) :
    (normalize_fn x mean std).length = x.length ∧
    ∀ (k : ℕ) (hk : k < x.length) (c i j : ℕ), c < (x.get ⟨k, hk⟩).channels →
      ((normalize_fn x mean std).get ⟨k, by simpa [normalize_fn] using hk⟩).pixel c i j
        = ((x.get ⟨k, hk⟩).pixel c i j - mean 0 c) / std 0 c := by
  constructor
  · simp [normalize_fn]
  · intro k hk c i j hc
    rw [List.get_eq_getElem] at hc
    simp [normalize_fn, normImg, List.getElem_map, hc]

/-- Witness for C8: a single-channel constant image of value 9, mean 3 and
std 2 normalizes to the constant (9 - 3) / 2 = 3. -/
theorem normalize_fn_formula_witness :
    ((normalize_fn [⟨1, 2, 2, fun _ _ _ => 9⟩] (fun _ _ => 3) (fun _ _ => 2)).get
      ⟨0, by simp [normalize_fn]⟩).pixel 0 0 0 = 3 := by
  have h := (normalize_fn_formula [⟨1, 2, 2, fun _ _ _ => 9⟩] (fun _ _ => 3) (fun _ _ => 2)
      (fun ch => by norm_num)).2 0 (by decide) 0 0 0 (by decide)
  exact h.trans (by show ((9 : ℚ) - 3) / 2 = 3; norm_num)

/-! ## Theorems about load_images_and_labels and the dataset -/

/-- The loading loop produces three sequences of the same length as the
file list, and the entries at each position all come from the file at
that position (image via the derived image path, label via classification
of the population row, geometry as the (index, geometry) pair). -/
theorem load_loop_spec (gdalOpen : String → Option Img) (gpdReadFile : String → Option Shp)
    (test colab : Bool) (classes : ℕ) :
    ∀ (files : List String) (im : List Img) (lb : List (List (List ℤ)))
      (ge : List (List ℤ × List ℤ)),
      load_loop gdalOpen gpdReadFile test colab classes files = .ok (im, lb, ge) →
      im.length = files.length ∧ lb.length = files.length ∧ ge.length = files.length ∧
      ∀ (k : ℕ) (sf : String), files.get? k = some sf →
        ∃ img shp lbl,
          gdalOpen (imagePathFor test colab sf) = some img ∧
          gpdReadFile (labelPathFor test colab sf) = some shp ∧
          classify [shp.index, shp.population] classes = .ok lbl ∧
          im.get? k = some img ∧ lb.get? k = some lbl ∧
          ge.get? k = some (shp.index, shp.geometry) := by
  intro files
  induction files with
  | nil =>
    intro im lb ge h
    simp only [load_loop] at h
    simp only [Except.ok.injEq, Prod.mk.injEq] at h
    obtain ⟨h1, h2, h3⟩ := h
    subst h1; subst h2; subst h3
    simp
  | cons sf rest ih =>
    intro im lb ge h
    simp only [load_loop] at h
    cases hg : gdalOpen (imagePathFor test colab sf) with
    | none => simp [hg] at h
    | some img =>
      cases hs : gpdReadFile (labelPathFor test colab sf) with
      | none => simp [hg, hs] at h
      | some shp =>
        cases hc : classify [shp.index, shp.population] classes with
        | error e => simp [hg, hs, hc] at h
        | ok lbl =>
          cases hr : load_loop gdalOpen gpdReadFile test colab classes rest with
          | error e => simp [hg, hs, hc, hr] at h
          | ok r =>
            simp only [hg, hs, hc, hr, Except.ok.injEq, Prod.mk.injEq] at h
            obtain ⟨h1, h2, h3⟩ := h
            subst h1; subst h2; subst h3
            have IH := ih r.1 r.2.1 r.2.2 (by rw [hr])
            refine ⟨by simp [IH.1], by simp [IH.2.1], by simp [IH.2.2.1], ?_⟩
            intro k sf0 hsf
            cases k with
            | zero =>
              simp only [List.get?] at hsf
              cases hsf
              exact ⟨img, shp, lbl, hg, hs, hc, rfl, rfl, rfl⟩
            | succ k =>
              exact IH.2.2.2 k sf0 hsf

/-- Claim C9: after construction, the three sequences of the dataset have
equal lengths, each the number of label files listed in the chosen
split's labels directory, which is exactly what `__len__` reports; and
the entries at every position k of the three sequences originate from the
label file at position k of the directory listing (appended in the same
loop iteration). -/
theorem dataset_parallel_sequences (listdir : String → List String)
    (gdalOpen : String → Option Img) (gpdReadFile : String → Option Shp)
    (test colab normalize : Bool) (mean std : ℕ → ℕ → ℚ) (flip : Bool)
    (fp : ℚ) (classes : ℕ) (ds : SatImageDataset)
    (h : satImageDataset_init listdir gdalOpen gpdReadFile test colab normalize
          mean std flip fp classes = .ok ds) :
    ds.x.length = (listdir (labelsFolder test colab)).length ∧
    ds.y.length = (listdir (labelsFolder test colab)).length ∧
    ds.geo.length = (listdir (labelsFolder test colab)).length ∧
    ds.len = (listdir (labelsFolder test colab)).length ∧
    ∀ (k : ℕ) (sf : String), (listdir (labelsFolder test colab)).get? k = some sf →
      ∃ img shp lbl,
        gdalOpen (imagePathFor test colab sf) = some img ∧
        gpdReadFile (labelPathFor test colab sf) = some shp ∧
        classify [shp.index, shp.population] classes = .ok lbl ∧
        ds.x.get? k = some (if normalize = true then normImg mean std img else img) ∧
        ds.y.get? k = some lbl ∧
        ds.geo.get? k = some (shp.index, shp.geometry) := by
  unfold satImageDataset_init at h
  cases hl : load_images_and_labels listdir gdalOpen gpdReadFile test colab classes with
  | error e => simp [hl] at h
  | ok r =>
    simp only [hl, Except.ok.injEq] at h
    subst h
    have HS := load_loop_spec gdalOpen gpdReadFile test colab classes
      (listdir (labelsFolder test colab)) r.1 r.2.1 r.2.2 hl
    refine ⟨?_, HS.2.1, HS.2.2.1, ?_, ?_⟩
    · by_cases hn : normalize = true <;> simp [hn, normalize_fn, HS.1]
    · show (if normalize = true then normalize_fn r.1 mean std else r.1).length
        = (listdir (labelsFolder test colab)).length
      by_cases hn : normalize = true <;> simp [hn, normalize_fn, HS.1]
    · intro k sf hsf
      obtain ⟨img, shp, lbl, hg, hs2, hc, hx, hy, hgeo⟩ := HS.2.2.2 k sf hsf
      refine ⟨img, shp, lbl, hg, hs2, hc, ?_, hy, hgeo⟩
      rw [List.get?_eq_getElem?] at hx
      by_cases hn : normalize = true
      · simp [hn, normalize_fn, hx]
      · simp [hn, hx]

/-- A concrete one-channel constant image used by witnesses. -/
def wImg : Img := ⟨1, 100, 100, fun _ _ _ => 5⟩

/-- A concrete label-file record: population 7, index 3, one geometry. -/
def wShp : Shp := ⟨[7], [3], [11]⟩

/-- A directory oracle listing a single label file. -/
def wListdir : String → List String := fun _ => ["Index_3.gpkg"]

/-- A raster backend oracle always returning `wImg`. -/
def wGdal : String → Option Img := fun _ => some wImg

/-- A vector backend oracle always returning `wShp`. -/
def wGpd : String → Option Shp := fun _ => some wShp

/-- The dataset built from the witness oracles (classes = 6, population 7
falls in bin 1). -/
def wDs : SatImageDataset := ⟨[wImg], [[[3], [7], [1]]], [([3], [11])], 1, false, 0⟩

/-- Witness for C9: constructing from a single label file yields three
length-1 sequences whose entries all originate from that file. -/
theorem dataset_parallel_sequences_witness :
    wDs.x.length = (wListdir (labelsFolder false false)).length ∧
    wDs.y.length = (wListdir (labelsFolder false false)).length ∧
    wDs.geo.length = (wListdir (labelsFolder false false)).length ∧
    wDs.len = (wListdir (labelsFolder false false)).length ∧
    ∀ (k : ℕ) (sf : String), (wListdir (labelsFolder false false)).get? k = some sf →
      ∃ img shp lbl,
        wGdal (imagePathFor false false sf) = some img ∧
        wGpd (labelPathFor false false sf) = some shp ∧
        classify [shp.index, shp.population] 6 = .ok lbl ∧
        wDs.x.get? k = some (if false = true then normImg (fun _ _ => 0) (fun _ _ => 0) img else img) ∧
        wDs.y.get? k = some lbl ∧
        wDs.geo.get? k = some (shp.index, shp.geometry) :=
  dataset_parallel_sequences wListdir wGdal wGpd false false false
    (fun _ _ => 0) (fun _ _ => 0) false 0 6 wDs rfl

/-! ## Theorems about SatImageDataset.__getitem__ -/

/-- Claim C10: for every in-range index, `get(index)` returns the stored
classified label at that position unmodified (the label is never cropped
or flipped), and returns the dataset state itself unchanged: its only
effect on shared state is advancing the random-number source. -/
theorem getitem_label_and_state (ds : SatImageDataset) (index : ℤ) (rng : Rng)
    (hlen : ds.y.length = ds.x.length) (h0 : 0 ≤ index)
    (hi : index < (ds.x.length : ℤ)) :
    ∃ im rng2, getitem ds index rng =
      .ok ((im, ds.y.get ⟨index.toNat, by omega⟩), ds, rng2) := by
  have hx : pyGetList ds.x index = .ok (ds.x.get ⟨index.toNat, by omega⟩) := by
    unfold pyGetList
    rw [dif_pos ⟨h0, hi⟩]
  have hy : pyGetList ds.y index = .ok (ds.y.get ⟨index.toNat, by omega⟩) := by
    unfold pyGetList
    rw [dif_pos ⟨h0, by omega⟩]
  exact ⟨(cropFlip ds (ds.x.get ⟨index.toNat, by omega⟩) rng).1,
    (cropFlip ds (ds.x.get ⟨index.toNat, by omega⟩) rng).2,
    by simp only [getitem, hx, hy]⟩

/-- A concrete one-image dataset used by access witnesses. -/
def wDs2 : SatImageDataset :=
  ⟨[⟨1, 40, 60, fun _ _ _ => 2⟩], [[[3], [7], [1]]], [([3], [11])], 1, false, 1/4⟩

/-- Witness for C10: accessing position 0 of a one-image dataset returns
its classified label unmodified and the dataset state unchanged. -/
theorem getitem_label_and_state_witness :
    ∃ im rng2, getitem wDs2 0 rngZero = .ok ((im, [[3], [7], [1]]), wDs2, rng2) :=
  getitem_label_and_state wDs2 0 rngZero rfl (by decide) (by decide)

/-- Counterexample for C4: `get(-1)` does not fail on a (nonempty)
constructed dataset; Python negative indexing makes it return the last
item. -/
theorem getitem_negative_index_succeeds :
    ∃ r, getitem wDs2 (-1) rngZero = .ok r :=
  ⟨_, rfl⟩

/-- Claim C4 as amended: `get(index)` fails with an `IndexError` exactly
for indices outside `[-length, length)`: in particular `get(length())`
fails, while any index in `[-length, length)` (such as -1 on a nonempty
dataset) succeeds. -/
theorem getitem_index_range (ds : SatImageDataset) (index : ℤ) (rng : Rng)
    (hlen : ds.y.length = ds.x.length) :
    ((index < -(ds.x.length : ℤ) ∨ (ds.x.length : ℤ) ≤ index) →
      getitem ds index rng = .error "IndexError: list index out of range") ∧
    (-(ds.x.length : ℤ) ≤ index → index < (ds.x.length : ℤ) →
      ∃ r, getitem ds index rng = .ok r) := by
  constructor
  · intro hout
    have hx : pyGetList ds.x index = .error "IndexError: list index out of range" := by
      unfold pyGetList
      rw [dif_neg (by omega), dif_neg (by omega)]
    simp only [getitem, hx]
  · intro hge hlt
    rcases le_or_lt 0 index with hpos | hneg
    · have hx : pyGetList ds.x index = .ok (ds.x.get ⟨index.toNat, by omega⟩) := by
        unfold pyGetList
        rw [dif_pos ⟨hpos, hlt⟩]
      have hy : pyGetList ds.y index = .ok (ds.y.get ⟨index.toNat, by omega⟩) := by
        unfold pyGetList
        rw [dif_pos ⟨hpos, by omega⟩]
      exact ⟨(((cropFlip ds (ds.x.get ⟨index.toNat, by omega⟩) rng).1,
        ds.y.get ⟨index.toNat, by omega⟩), ds,
        (cropFlip ds (ds.x.get ⟨index.toNat, by omega⟩) rng).2),
        by simp only [getitem, hx, hy]⟩
    · have hx : pyGetList ds.x index =
          .ok (ds.x.get ⟨(index + (ds.x.length : ℤ)).toNat, by omega⟩) := by
        unfold pyGetList
        rw [dif_neg (by omega), dif_pos ⟨hge, hneg⟩]
      have hy : pyGetList ds.y index =
          .ok (ds.y.get ⟨(index + (ds.y.length : ℤ)).toNat, by omega⟩) := by
        unfold pyGetList
        rw [dif_neg (by omega), dif_pos ⟨by omega, hneg⟩]
      exact ⟨(((cropFlip ds (ds.x.get ⟨(index + (ds.x.length : ℤ)).toNat, by omega⟩) rng).1,
        ds.y.get ⟨(index + (ds.y.length : ℤ)).toNat, by omega⟩), ds,
        (cropFlip ds (ds.x.get ⟨(index + (ds.x.length : ℤ)).toNat, by omega⟩) rng).2),
        by simp only [getitem, hx, hy]⟩

/-- Witness for the amended C4: on a one-image dataset, `get(1)` (that is,
`get(length())`) raises `IndexError` while `get(0)` succeeds. -/
theorem getitem_index_range_witness :
    getitem wDs2 1 rngZero = .error "IndexError: list index out of range" ∧
    ∃ r, getitem wDs2 0 rngZero = .ok r :=
  ⟨(getitem_index_range wDs2 1 rngZero rfl).1 (Or.inr (by decide)),
   (getitem_index_range wDs2 0 rngZero rfl).2 (by decide) (by decide)⟩

end SatImage
